import Mathlib

/-
Verification of the cgmath geometry library (vectors, planes, projection
matrices, intersection predicates) against its natural-language
specification.  The Rust sources are shallowly embedded: the floating
point scalar type is modelled by an arbitrary linear ordered field (and
by the real numbers where trigonometric functions or square roots
occur), structs become structures, and fatal assertions or panics are
modelled with the Except monad.
-/

namespace Cgmath

/-- A two-component vector, from vector.rs (macro expansion of vec! for Vector2). -/
structure Vector2 (α : Type) where
  x : α
  y : α
deriving DecidableEq

/-- A three-component vector, from vector.rs (macro expansion of vec! for Vector3). -/
structure Vector3 (α : Type) where
  x : α
  y : α
  z : α
deriving DecidableEq

/-- A four-component vector, from vector.rs (macro expansion of vec! for Vector4). -/
structure Vector4 (α : Type) where
  x : α
  y : α
  z : α
  w : α
deriving DecidableEq

/-- Modelled from the spec: Point2 is an ordered pair of scalars representing a
position (point.rs is not part of the provided sources). -/
structure Point2 (α : Type) where
  x : α
  y : α
deriving DecidableEq

/-- Modelled from the spec: Point3 is an ordered triple of scalars representing a
position (point.rs is not part of the provided sources). -/
structure Point3 (α : Type) where
  x : α
  y : α
  z : α
deriving DecidableEq

variable {α : Type} [LinearOrderedField α]

/-- Vector2::zero, from vector.rs: from_value(0). -/
def Vector2.zero : Vector2 α := ⟨0, 0⟩

/-- Vector3::zero, from vector.rs: from_value(0). -/
def Vector3.zero : Vector3 α := ⟨0, 0, 0⟩

/-- Vector4::zero, from vector.rs: from_value(0). -/
def Vector4.zero : Vector4 α := ⟨0, 0, 0, 0⟩

/-- Vector2 dot product, from vector.rs: mul_v followed by comp_add. -/
def Vector2.dot (a b : Vector2 α) : α := a.x * b.x + a.y * b.y

/-- Vector3 dot product, from vector.rs: mul_v followed by comp_add. -/
def Vector3.dot (a b : Vector3 α) : α := a.x * b.x + a.y * b.y + a.z * b.z

/-- Vector4 dot product, from vector.rs: mul_v followed by comp_add. -/
def Vector4.dot (a b : Vector4 α) : α := a.x * b.x + a.y * b.y + a.z * b.z + a.w * b.w

/-- Vector2::length2, from vector.rs: dot(self, self). -/
def Vector2.length2 (a : Vector2 α) : α := a.dot a

/-- Vector3::length2, from vector.rs: dot(self, self). -/
def Vector3.length2 (a : Vector3 α) : α := a.dot a

/-- Vector4::length2, from vector.rs: dot(self, self). -/
def Vector4.length2 (a : Vector4 α) : α := a.dot a

/-- Vector2::perp_dot, from vector.rs: (self.x * other.y) - (self.y * other.x). -/
def Vector2.perp_dot (a b : Vector2 α) : α := a.x * b.y - a.y * b.x

/-- Vector3::cross, from vector.rs. -/
def Vector3.cross (a b : Vector3 α) : Vector3 α :=
  ⟨a.y * b.z - a.z * b.y, a.z * b.x - a.x * b.z, a.x * b.y - a.y * b.x⟩

/-- Vector3::mul_s, from vector.rs: componentwise multiplication by a scalar. -/
def Vector3.mul_s (a : Vector3 α) (s : α) : Vector3 α := ⟨a.x * s, a.y * s, a.z * s⟩

/-- Vector3::div_s, from vector.rs: componentwise division by a scalar. -/
def Vector3.div_s (a : Vector3 α) (s : α) : Vector3 α := ⟨a.x / s, a.y / s, a.z / s⟩

/-- Vector3::sub_v, from vector.rs: componentwise subtraction. -/
def Vector3.sub_v (a b : Vector3 α) : Vector3 α := ⟨a.x - b.x, a.y - b.y, a.z - b.z⟩

/-- Modelled from the spec: Point3 minus Point3 yields a Vector3 (point.rs sub_p
is not part of the provided sources). -/
def Point3.sub_p (a b : Point3 α) : Vector3 α := ⟨a.x - b.x, a.y - b.y, a.z - b.z⟩

/-- Modelled from the spec: Point3 plus Vector3 yields a Point3 (point.rs add_v
is not part of the provided sources). -/
def Point3.add_v (a : Point3 α) (v : Vector3 α) : Point3 α :=
  ⟨a.x + v.x, a.y + v.y, a.z + v.z⟩

/-- Modelled from the spec: the dot product of a position with a vector, the sum
of componentwise products (point.rs dot is not part of the provided sources). -/
def Point3.dot (p : Point3 α) (v : Vector3 α) : α := p.x * v.x + p.y * v.y + p.z * v.z

/-- Vector::is_perpendicular_eps, the trait default from vector.rs, at arity 2:
the squared dot product is at most the product of squared lengths times epsilon squared. -/
def Vector2.is_perpendicular_eps (a b : Vector2 α) (ε : α) : Prop :=
  a.dot b * a.dot b ≤ a.length2 * b.length2 * ε * ε

/-- Vector::is_perpendicular_eps, the trait default from vector.rs, at arity 3. -/
def Vector3.is_perpendicular_eps (a b : Vector3 α) (ε : α) : Prop :=
  a.dot b * a.dot b ≤ a.length2 * b.length2 * ε * ε

/-- Vector::is_perpendicular_eps, the trait default from vector.rs, at arity 4. -/
def Vector4.is_perpendicular_eps (a b : Vector4 α) (ε : α) : Prop :=
  a.dot b * a.dot b ≤ a.length2 * b.length2 * ε * ε

/-- Vector2::is_parallel_eps, the inherent (perp-dot) form from vector.rs. -/
def Vector2.is_parallel_eps (a b : Vector2 α) (ε : α) : Prop :=
  a.perp_dot b * a.perp_dot b ≤ a.length2 * b.length2 * ε * ε

/-- Vector3::is_parallel_eps, the inherent (cross-product) form from vector.rs. -/
def Vector3.is_parallel_eps (a b : Vector3 α) (ε : α) : Prop :=
  (a.cross b).length2 ≤ ε * ε * a.length2 * b.length2

/-- Vector::is_parallel_eps, the trait default from vector.rs, at arity 4
(Vector4 has no inherent override). -/
def Vector4.is_parallel_eps (a b : Vector4 α) (ε : α) : Prop :=
  a.length2 * b.length2 * (1 - ε * ε) ≤ a.dot b * a.dot b

/-- Vector::is_parallel_eps, the trait default from vector.rs, at arity 2
(also reachable besides the inherent override). -/
def Vector2.is_parallel_eps_default (a b : Vector2 α) (ε : α) : Prop :=
  a.length2 * b.length2 * (1 - ε * ε) ≤ a.dot b * a.dot b

/-- Vector::is_parallel_eps, the trait default from vector.rs, at arity 3
(also reachable besides the inherent override). -/
def Vector3.is_parallel_eps_default (a b : Vector3 α) (ε : α) : Prop :=
  a.length2 * b.length2 * (1 - ε * ε) ≤ a.dot b * a.dot b

/-- The per-type default tolerance from approx.rs, 1.0e-5 for both f32 and f64,
as an exact rational literal. -/
def epsilon : α := 1 / 100000

/-- Scalar ApproxEq::approx_eq_eps from approx.rs: abs(a - b) < epsilon. -/
def approx_eq_eps_s (a b ε : α) : Prop := |a - b| < ε

/-- Vector3 ApproxEq::approx_eq_eps from vector.rs (macro expansion): the
squared distance is compared against epsilon squared, scaled by the larger
squared length when that exceeds one. -/
def Vector3.approx_eq_eps (a b : Vector3 α) (ε : α) : Prop :=
  let scale := max a.length2 b.length2
  if scale > 1 then (a.sub_v b).length2 ≤ ε * ε * scale
  else (a.sub_v b).length2 ≤ ε * ε

/-- ApproxEq::approx_eq from approx.rs: approx_eq_eps at the default epsilon. -/
def Vector3.approx_eq (a b : Vector3 α) : Prop := a.approx_eq_eps b epsilon

instance (a b : Vector3 α) (ε : α) : Decidable (a.approx_eq_eps b ε) := by
  unfold Vector3.approx_eq_eps
  infer_instance

instance (a b : Vector3 α) : Decidable (a.approx_eq b) := by
  unfold Vector3.approx_eq
  infer_instance

/-- A 2D axis-aligned bounding box, from the aabb module: a pair of corner points. -/
structure Aabb2 (α : Type) where
  min : Point2 α
  max : Point2 α
deriving DecidableEq

/-- A 2D ray, from the ray module: origin point and direction vector. -/
structure Ray2 (α : Type) where
  origin : Point2 α
  direction : Vector2 α
deriving DecidableEq

/-- A 3D ray, from the ray module: origin point and direction vector. -/
structure Ray3 (α : Type) where
  origin : Point3 α
  direction : Vector3 α
deriving DecidableEq

/-- A plane, from plane.rs: a normal vector n and a scalar d. -/
structure Plane (α : Type) where
  n : Vector3 α
  d : α
deriving DecidableEq

/-- A sphere, from the sphere module: center point and radius. -/
structure Sphere (α : Type) where
  center : Point3 α
  radius : α
deriving DecidableEq

/-- The scalar type extended with the two infinities, modelling the
Float::neg_infinity() and Float::infinity() initial slab bounds in
intersect.rs. -/
abbrev Ext (α : Type) := WithBot (WithTop α)

/-- Embeds a finite scalar into the extended scalar type. -/
def toE (a : α) : Ext α := ((a : WithTop α) : WithBot (WithTop α))

/-- Intersect for (Ray2, Aabb2) from intersect.rs: the 2D slab test.  The
running interval starts at (neg_infinity, infinity); each axis with a nonzero
direction component tightens it; the final branch structure mirrors the source. -/
def intersection_ray2_aabb2 (ray : Ray2 α) (aabb : Aabb2 α) : Option (Ext α) :=
  let s0 : Ext α × Ext α := (⊥, ⊤)
  let s1 : Ext α × Ext α :=
    if ray.direction.x ≠ 0 then
      let tx1 := (aabb.min.x - ray.origin.x) / ray.direction.x
      let tx2 := (aabb.max.x - ray.origin.x) / ray.direction.x
      (max s0.1 (toE (min tx1 tx2)), min s0.2 (toE (max tx1 tx2)))
    else s0
  let s2 : Ext α × Ext α :=
    if ray.direction.y ≠ 0 then
      let ty1 := (aabb.min.y - ray.origin.y) / ray.direction.y
      let ty2 := (aabb.max.y - ray.origin.y) / ray.direction.y
      (max s1.1 (toE (min ty1 ty2)), min s1.2 (toE (max ty1 ty2)))
    else s1
  let tmin := s2.1
  let tmax := s2.2
  if tmin < 0 ∧ tmax < 0 then none
  else if tmax ≥ tmin then
    if tmin ≥ 0 then some tmin else some tmax
  else none

/-- One slab update of the claimed ray-box algorithm: an axis is a tuple of the
ray origin coordinate, the ray direction coordinate, and the box lower and
upper bounds on that axis; axes with a zero direction component are skipped. -/
def slab_update (acc : Ext α × Ext α) (ax : α × α × α × α) : Ext α × Ext α :=
  if ax.2.1 = 0 then acc
  else
    let t1 := (ax.2.2.1 - ax.1) / ax.2.1
    let t2 := (ax.2.2.2 - ax.1) / ax.2.1
    (max acc.1 (toE (min t1 t2)), min acc.2 (toE (max t1 t2)))

/-- The ray-box result as the claim words it: fold the slab updates over both
axes starting from (neg-infinity, infinity); report no intersection if both
bounds are negative; otherwise, if tmax is at least tmin, report tmin when it
is non-negative and tmax otherwise; otherwise no intersection. -/
def ray_aabb2_claimed (ray : Ray2 α) (aabb : Aabb2 α) : Option (Ext α) :=
  let axes : List (α × α × α × α) :=
    [(ray.origin.x, ray.direction.x, aabb.min.x, aabb.max.x),
     (ray.origin.y, ray.direction.y, aabb.min.y, aabb.max.y)]
  let acc := axes.foldl slab_update ((⊥ : Ext α), (⊤ : Ext α))
  if acc.1 < 0 ∧ acc.2 < 0 then none
  else if acc.1 ≤ acc.2 then
    if 0 ≤ acc.1 then some acc.1 else some acc.2
  else none

/-- Intersect for (Plane, Ray3) from intersect.rs. -/
def intersection_plane_ray3 (p : Plane α) (r : Ray3 α) : Option α :=
  let t := (-(p.d + r.origin.dot p.n)) / (r.direction.dot p.n)
  if t < 0 then none else some t

/-- IntersectPoint for (Plane, Ray3) from intersect.rs. -/
def intersection_point_plane_ray3 (p : Plane α) (r : Ray3 α) : Option (Point3 α) :=
  match intersection_plane_ray3 p r with
  | some t => some (r.origin.add_v (r.direction.mul_s t))
  | none => none

/-- The panic message of the unimplemented plane intersection paths in
intersect.rs. -/
def msg_not_implemented : String := "Not yet implemented"

/-- Intersect for (Plane, Plane) from intersect.rs.  The body is a fail! macro,
a fatal condition, modelled as an Except error carrying the panic message. -/
def intersection_plane_plane (_a _b : Plane α) : Except String (Option (Ray3 α)) :=
  Except.error msg_not_implemented

/-- IntersectPoint for (Plane, Plane, Plane) from intersect.rs.  The body is a
fail! macro, a fatal condition, modelled as an Except error carrying the panic
message. -/
def intersection_point_plane_plane_plane (_a _b _c : Plane α) :
    Except String (Option (Point3 α)) :=
  Except.error msg_not_implemented

/-- IntersectPoint for (Sphere, Ray3) from intersect.rs, over the reals since
the half-chord requires a square root. -/
noncomputable def intersection_point_sphere_ray3 (s : Sphere ℝ) (r : Ray3 ℝ) :
    Option (Point3 ℝ) :=
  let l := s.center.sub_p r.origin
  let tca := l.dot r.direction
  if tca < 0 then none
  else
    let d2 := l.dot l - tca * tca
    if d2 > s.radius * s.radius then none
    else
      let thc := Real.sqrt (s.radius * s.radius - d2)
      some (r.origin.add_v (r.direction.mul_s (tca - thc)))

/-- Plane::from_points from plane.rs: the cross product of the two edge
vectors is the normal; an approximately zero normal yields no plane; the
distance is the negated dot product of the first point with the normal. -/
def Plane.from_points (a b c : Point3 α) : Option (Plane α) :=
  let v0 := b.sub_p a
  let v1 := c.sub_p a
  let n := v0.cross v1
  if n.approx_eq Vector3.zero then none
  else some (Plane.mk n (-(a.dot n)))

/-- Modelled from the spec: three points are collinear when the two edge
vectors from the first point are linearly dependent, equivalently when their
cross product vanishes. -/
def Point3.collinear (a b c : Point3 α) : Prop :=
  (b.sub_p a).cross (c.sub_p a) = Vector3.zero

/-- Modelled from the spec: the two-argument arctangent in radians (the angle
module is not part of the provided sources); standard atan2 semantics, the
angle of the point (x, y) measured from the positive x axis. -/
noncomputable def atan2 (y x : ℝ) : ℝ :=
  if 0 < x then Real.arctan (y / x)
  else if x < 0 then
    if 0 ≤ y then Real.arctan (y / x) + Real.pi else Real.arctan (y / x) - Real.pi
  else
    if 0 < y then Real.pi / 2
    else if y < 0 then -(Real.pi / 2)
    else 0

/-- Vector3::length from vector.rs: the square root of length2. -/
noncomputable def Vector3.length (a : Vector3 ℝ) : ℝ := Real.sqrt a.length2

/-- EuclideanVector::angle for Vector2 from vector.rs: atan2 of the perp-dot
product (as written in the source, without an absolute value) and the dot
product, in radians. -/
noncomputable def Vector2.angle (a b : Vector2 ℝ) : ℝ := atan2 (a.perp_dot b) (a.dot b)

/-- EuclideanVector::angle for Vector3 from vector.rs: atan2 of the length of
the cross product and the dot product, in radians. -/
noncomputable def Vector3.angle (a b : Vector3 ℝ) : ℝ := atan2 ((a.cross b).length) (a.dot b)

/-- A 4x4 matrix, from the matrix module, as its 16 scalar entries in
column-major order, matching the argument order of Mat4::new. -/
structure Mat4 (α : Type) where
  c0r0 : α
  c0r1 : α
  c0r2 : α
  c0r3 : α
  c1r0 : α
  c1r1 : α
  c1r2 : α
  c1r3 : α
  c2r0 : α
  c2r1 : α
  c2r2 : α
  c2r3 : α
  c3r0 : α
  c3r1 : α
  c3r2 : α
  c3r3 : α
deriving DecidableEq

/-- A perspective projection based on a vertical field-of-view angle, from
projection.rs, with the angle type instantiated at radians over the reals. -/
structure PerspectiveFov where
  fovy : ℝ
  aspect : ℝ
  near : ℝ
  far : ℝ

/-- A perspective projection with arbitrary left/right/bottom/top distances,
from projection.rs. -/
structure Perspective (α : Type) where
  left : α
  right : α
  bottom : α
  top : α
  near : α
  far : α
deriving DecidableEq

/-- An orthographic projection with arbitrary left/right/bottom/top distances,
from projection.rs. -/
structure Ortho (α : Type) where
  left : α
  right : α
  bottom : α
  top : α
  near : α
  far : α
deriving DecidableEq

/-- Modelled from the spec: cot, the reciprocal of the tangent (the angle
module is not part of the provided sources; the spec uses f = cot(fovy/2)). -/
noncomputable def cot (x : ℝ) : ℝ := (Real.tan x)⁻¹

/-- The panic message of the first PerspectiveFov assertion in projection.rs
(the formatted operand values are omitted). -/
def msg_fovy_below_zero : String := "The vertical field of view cannot be below zero"

/-- The panic message of the second PerspectiveFov assertion in projection.rs. -/
def msg_fovy_half_turn : String := "The vertical field of view cannot be greater than a half turn"

/-- The panic message of the third PerspectiveFov assertion in projection.rs. -/
def msg_aspect_below_zero : String := "The aspect ratio cannot be below zero"

/-- The panic message of the fourth PerspectiveFov assertion in projection.rs. -/
def msg_near_below_zero : String := "The near plane distance cannot be below zero"

/-- The panic message of the fifth PerspectiveFov assertion in projection.rs. -/
def msg_far_below_zero : String := "The far plane distance cannot be below zero"

/-- The panic message of the sixth PerspectiveFov assertion in projection.rs. -/
def msg_far_closer : String := "The far plane cannot be closer than the near plane"

/-- The panic message of the left/right assertion of Perspective and Ortho in
projection.rs. -/
def msg_left_right : String := "`left` cannot be greater than `right`"

/-- The panic message of the bottom/top assertion of Perspective and Ortho in
projection.rs. -/
def msg_bottom_top : String := "`bottom` cannot be greater than `top`"

/-- The panic message of the near/far assertion of Perspective and Ortho in
projection.rs. -/
def msg_near_far : String := "`near` cannot be greater than `far`"

/-- PerspectiveFov::to_perspective from projection.rs: derives the frustum
bounds ymax = near * tan(fovy/2) and xmax = ymax * aspect. -/
noncomputable def PerspectiveFov.to_perspective (p : PerspectiveFov) : Perspective ℝ :=
  let angle := p.fovy / 2
  let ymax := p.near * Real.tan angle
  let xmax := ymax * p.aspect
  ⟨-xmax, xmax, -ymax, ymax, p.near, p.far⟩

/-- The matrix built by PerspectiveFov::to_mat4 in projection.rs after its
assertions, with f = cot(fovy/2). -/
noncomputable def PerspectiveFov.to_mat4_matrix (p : PerspectiveFov) : Mat4 ℝ :=
  let f := cot (p.fovy / 2)
  ⟨f / p.aspect, 0, 0, 0,
   0, f, 0, 0,
   0, 0, (p.far + p.near) / (p.near - p.far), -1,
   0, 0, 2 * p.far * p.near / (p.near - p.far), 0⟩

/-- PerspectiveFov::to_mat4 from projection.rs.  Each assert! aborts, with its
message, exactly when its condition is false; the conditions are transcribed
as they stand in the source. -/
noncomputable def PerspectiveFov.to_mat4 (p : PerspectiveFov) : Except String (Mat4 ℝ) :=
  let half_turn : ℝ := Real.pi / 2
  if ¬ (p.fovy < 0) then Except.error msg_fovy_below_zero
  else if ¬ (p.fovy > half_turn) then Except.error msg_fovy_half_turn
  else if ¬ (p.aspect < 0) then Except.error msg_aspect_below_zero
  else if ¬ (p.near < 0) then Except.error msg_near_below_zero
  else if ¬ (p.far < 0) then Except.error msg_far_below_zero
  else if ¬ (p.far < p.near) then Except.error msg_far_closer
  else Except.ok p.to_mat4_matrix

/-- The matrix built by Perspective::to_mat4 in projection.rs after its
assertions. -/
def Perspective.to_mat4_matrix (p : Perspective α) : Mat4 α :=
  ⟨2 * p.near / (p.right - p.left), 0, 0, 0,
   0, 2 * p.near / (p.top - p.bottom), 0, 0,
   (p.right + p.left) / (p.right - p.left), (p.top + p.bottom) / (p.top - p.bottom),
     (-(p.far + p.near)) / (p.far - p.near), -1,
   0, 0, (-(2 * p.far * p.near)) / (p.far - p.near), 0⟩

/-- Perspective::to_mat4 from projection.rs, assertions transcribed as they
stand in the source. -/
def Perspective.to_mat4 (p : Perspective α) : Except String (Mat4 α) :=
  if ¬ (p.left > p.right) then Except.error msg_left_right
  else if ¬ (p.bottom > p.top) then Except.error msg_bottom_top
  else if ¬ (p.near > p.far) then Except.error msg_near_far
  else Except.ok p.to_mat4_matrix

/-- The matrix built by Ortho::to_mat4 in projection.rs after its assertions
(including the c2r3 = -1 entry exactly as the source writes it). -/
def Ortho.to_mat4_matrix (p : Ortho α) : Mat4 α :=
  ⟨2 / (p.right - p.left), 0, 0, 0,
   0, 2 / (p.top - p.bottom), 0, 0,
   0, 0, (-2) / (p.far - p.near), -1,
   (-(p.right + p.left)) / (p.right - p.left), (-(p.top + p.bottom)) / (p.top - p.bottom),
     (-(p.far + p.near)) / (p.far - p.near), 1⟩

/-- Ortho::to_mat4 from projection.rs, assertions transcribed as they stand in
the source. -/
def Ortho.to_mat4 (p : Ortho α) : Except String (Mat4 α) :=
  if ¬ (p.left > p.right) then Except.error msg_left_right
  else if ¬ (p.bottom > p.top) then Except.error msg_bottom_top
  else if ¬ (p.near > p.far) then Except.error msg_near_far
  else Except.ok p.to_mat4_matrix

/-- The top-level perspective function from projection.rs: build a
PerspectiveFov and convert it to a matrix. -/
noncomputable def perspective (fovy aspect near far : ℝ) : Except String (Mat4 ℝ) :=
  (PerspectiveFov.mk fovy aspect near far).to_mat4

/-- The top-level frustum function from projection.rs: build a Perspective and
convert it to a matrix. -/
def frustum (left right bottom top near far : α) : Except String (Mat4 α) :=
  (Perspective.mk left right bottom top near far).to_mat4

/-- C7: for every pair of planes and every triple of planes, the plane-plane
intersection and the plane-plane-plane intersection raise the fatal
"not implemented" condition for all inputs, and never return either a result
or a no-intersection answer. -/
theorem c7_plane_intersections_not_implemented :
    (∀ a b : Plane ℝ, intersection_plane_plane a b = Except.error msg_not_implemented) ∧
    (∀ a b c : Plane ℝ,
      intersection_point_plane_plane_plane a b c = Except.error msg_not_implemented) :=
  ⟨fun _ _ => rfl, fun _ _ _ => rfl⟩

/-- C10: for every vector b of arity 2, 3 or 4 and every tolerance at least
zero, both is_parallel_eps (the inherent overrides and the trait default) and
is_perpendicular_eps hold of the zero vector and b. -/
theorem c10_zero_vector_parallel_and_perpendicular {α : Type} [LinearOrderedField α]
    (ε : α) (hε : 0 ≤ ε) :
    (∀ b : Vector2 α, Vector2.is_parallel_eps Vector2.zero b ε ∧
      Vector2.is_parallel_eps_default Vector2.zero b ε ∧
      Vector2.is_perpendicular_eps Vector2.zero b ε) ∧
    (∀ b : Vector3 α, Vector3.is_parallel_eps Vector3.zero b ε ∧
      Vector3.is_parallel_eps_default Vector3.zero b ε ∧
      Vector3.is_perpendicular_eps Vector3.zero b ε) ∧
    (∀ b : Vector4 α, Vector4.is_parallel_eps Vector4.zero b ε ∧
      Vector4.is_perpendicular_eps Vector4.zero b ε) := by
  refine ⟨fun b => ⟨?_, ?_, ?_⟩, fun b => ⟨?_, ?_, ?_⟩, fun b => ⟨?_, ?_⟩⟩ <;>
    simp [Vector2.is_parallel_eps, Vector2.is_parallel_eps_default,
      Vector2.is_perpendicular_eps, Vector3.is_parallel_eps,
      Vector3.is_parallel_eps_default, Vector3.is_perpendicular_eps,
      Vector4.is_parallel_eps, Vector4.is_perpendicular_eps,
      Vector2.zero, Vector3.zero, Vector4.zero, Vector2.dot, Vector3.dot,
      Vector4.dot, Vector2.length2, Vector3.length2, Vector4.length2,
      Vector2.perp_dot, Vector3.cross]

/-- Witness for C10 at the rationals, with tolerance zero and concrete vectors. -/
theorem c10_witness :
    ((0:ℚ) ≤ 0) ∧
    (Vector2.is_parallel_eps Vector2.zero (Vector2.mk 1 2) (0:ℚ) ∧
      Vector2.is_parallel_eps_default Vector2.zero (Vector2.mk 1 2) (0:ℚ) ∧
      Vector2.is_perpendicular_eps Vector2.zero (Vector2.mk 1 2) (0:ℚ)) ∧
    (Vector3.is_parallel_eps Vector3.zero (Vector3.mk 1 2 3) (0:ℚ) ∧
      Vector3.is_parallel_eps_default Vector3.zero (Vector3.mk 1 2 3) (0:ℚ) ∧
      Vector3.is_perpendicular_eps Vector3.zero (Vector3.mk 1 2 3) (0:ℚ)) ∧
    (Vector4.is_parallel_eps Vector4.zero (Vector4.mk 1 2 3 4) (0:ℚ) ∧
      Vector4.is_perpendicular_eps Vector4.zero (Vector4.mk 1 2 3 4) (0:ℚ)) :=
  ⟨le_refl 0,
    (c10_zero_vector_parallel_and_perpendicular (0:ℚ) (le_refl 0)).1 (Vector2.mk 1 2),
    (c10_zero_vector_parallel_and_perpendicular (0:ℚ) (le_refl 0)).2.1 (Vector3.mk 1 2 3),
    (c10_zero_vector_parallel_and_perpendicular (0:ℚ) (le_refl 0)).2.2 (Vector4.mk 1 2 3 4)⟩

/-- C2: the Perspective and Ortho assertions in projection.rs are inverted:
with the well-ordered bounds left -1 < right 1, bottom -1 < top 1,
near 1 < far 2 both conversions abort with the left/right message, and in
general a conversion succeeds exactly when all three bounds are reversed. -/
theorem c2_perspective_ortho_validation_inverted :
    ((Perspective.mk (-1) 1 (-1) 1 1 2 : Perspective ℚ).to_mat4 =
      Except.error msg_left_right) ∧
    ((Ortho.mk (-1) 1 (-1) 1 1 2 : Ortho ℚ).to_mat4 = Except.error msg_left_right) ∧
    (∀ p : Perspective ℚ, p.to_mat4 = Except.ok p.to_mat4_matrix ↔
      (p.right < p.left ∧ p.top < p.bottom ∧ p.far < p.near)) ∧
    (∀ p : Ortho ℚ, p.to_mat4 = Except.ok p.to_mat4_matrix ↔
      (p.right < p.left ∧ p.top < p.bottom ∧ p.far < p.near)) := by
  refine ⟨?_, ?_, fun p => ?_, fun p => ?_⟩
  · simp only [Perspective.to_mat4]
    rw [if_pos (by norm_num)]
  · simp only [Ortho.to_mat4]
    rw [if_pos (by norm_num)]
  all_goals
    constructor
    · intro h
      simp only [Perspective.to_mat4, Ortho.to_mat4] at h
      split_ifs at h with h1 h2 h3
      exact ⟨h1, h2, h3⟩
    · intro h
      simp only [Perspective.to_mat4, Ortho.to_mat4]
      rw [if_neg (not_not_intro h.1), if_neg (not_not_intro h.2.1),
        if_neg (not_not_intro h.2.2)]

/-- C1: the PerspectiveFov assertions in projection.rs are inverted: the first
two transcribed conditions (fovy below zero and fovy above a half turn, the
latter computed as pi/2) are jointly unsatisfiable, so the conversion aborts
for every input, and in particular at the valid parameters fovy = pi/2,
aspect = 1, near = 1, far = 100 it aborts claiming the field of view is below
zero. -/
theorem c1_perspective_fov_validation_inverted :
    (∀ p : PerspectiveFov, ∀ m : Mat4 ℝ, p.to_mat4 ≠ Except.ok m) ∧
    (PerspectiveFov.mk (Real.pi / 2) 1 1 100).to_mat4 =
      Except.error msg_fovy_below_zero := by
  constructor
  · intro p m h
    simp only [PerspectiveFov.to_mat4] at h
    split_ifs at h with h1 h2 h3 h4 h5 h6
    have hpi : (0:ℝ) < Real.pi / 2 := by positivity
    linarith
  · simp only [PerspectiveFov.to_mat4]
    rw [if_pos (not_lt.mpr (by positivity))]

/-- C3: at fovy = pi/2, aspect = 1, near = 1, far = 100 both construction
paths abort because of the inverted assertions (the field-of-view path on its
first assertion, the derived general frustum on its left/right assertion), so
neither produces a matrix; the matrices each path would build after its
assertions, however, agree entry for entry, with the bounds derived via
ymax = near * tan(fovy/2) giving left -1, right 1, bottom -1, top 1. -/
theorem c3_fov_and_frustum_paths :
    perspective (Real.pi / 2) 1 1 100 = Except.error msg_fovy_below_zero ∧
    (PerspectiveFov.mk (Real.pi / 2) 1 1 100).to_perspective =
      Perspective.mk (-1) 1 (-1) 1 1 100 ∧
    (PerspectiveFov.mk (Real.pi / 2) 1 1 100).to_perspective.to_mat4 =
      Except.error msg_left_right ∧
    (PerspectiveFov.mk (Real.pi / 2) 1 1 100).to_mat4_matrix =
      (PerspectiveFov.mk (Real.pi / 2) 1 1 100).to_perspective.to_mat4_matrix := by
  have htan : Real.tan (Real.pi / 2 / 2) = 1 := by
    rw [show Real.pi / 2 / 2 = Real.pi / 4 by ring, Real.tan_pi_div_four]
  have hpersp : (PerspectiveFov.mk (Real.pi / 2) 1 1 100).to_perspective =
      Perspective.mk (-1) 1 (-1) 1 1 100 := by
    simp only [PerspectiveFov.to_perspective, htan]
    norm_num
  refine ⟨?_, hpersp, ?_, ?_⟩
  · simp only [perspective, PerspectiveFov.to_mat4]
    rw [if_pos (not_lt.mpr (by positivity))]
  · rw [hpersp]
    simp only [Perspective.to_mat4]
    rw [if_pos (by norm_num)]
  · rw [hpersp]
    simp only [PerspectiveFov.to_mat4_matrix, Perspective.to_mat4_matrix, cot, htan]
    norm_num

/-- C4: the 2D ray-box intersection agrees, for every ray and box, with the
claimed slab algorithm: fold the slab updates over the two axes (skipping axes
with a zero direction component, starting from the interval from negative to
positive infinity), then report no intersection if both bounds are negative;
otherwise, if tmax is at least tmin, report tmin when non-negative and tmax
otherwise; otherwise no intersection. -/
theorem c4_ray_aabb2_matches_claimed_slab_algorithm
    (ray : Ray2 ℝ) (aabb : Aabb2 ℝ) :
    intersection_ray2_aabb2 ray aabb = ray_aabb2_claimed ray aabb := by
  simp only [intersection_ray2_aabb2, ray_aabb2_claimed, slab_update, List.foldl]
  by_cases hx : ray.direction.x = 0 <;> by_cases hy : ray.direction.y = 0 <;>
    simp [hx, hy, ge_iff_le]

/-- C5: the ray-plane intersection returns the parameter
t = -(d + origin dot n) / (direction dot n) exactly when t is non-negative and
nothing otherwise; concretely, the ray from (2,3,4) with direction (1,1,1)/sqrt 3
meets the plane with n = (1,0,0), d = -7 at the point (7,8,9). -/
theorem c5_ray_plane_intersection :
    (∀ (p : Plane ℝ) (r : Ray3 ℝ),
      intersection_plane_ray3 p r =
        if 0 ≤ (-(p.d + r.origin.dot p.n)) / (r.direction.dot p.n) then
          some ((-(p.d + r.origin.dot p.n)) / (r.direction.dot p.n))
        else none) ∧
    intersection_point_plane_ray3 (Plane.mk (Vector3.mk 1 0 0) (-7))
        (Ray3.mk (Point3.mk 2 3 4) ((Vector3.mk 1 1 1).div_s (Real.sqrt 3))) =
      some (Point3.mk 7 8 9) := by
  constructor
  · intro p r
    simp only [intersection_plane_ray3]
    split_ifs with h1 h2 <;> first | rfl | linarith
  · have hs : (0:ℝ) < Real.sqrt 3 := Real.sqrt_pos.mpr (by norm_num)
    simp only [intersection_point_plane_ray3, intersection_plane_ray3,
      Point3.dot, Vector3.dot, Vector3.div_s, Vector3.mul_s, Point3.add_v]
    rw [if_neg (by push_neg; positivity)]
    have h3 : Real.sqrt 3 ≠ 0 := ne_of_gt hs
    norm_num
    constructor
    · field_simp
      ring
    constructor
    · field_simp
      ring
    · field_simp
      ring

/-- C6: for every sphere and 3D ray whose closest-approach parameter
tca = (center - origin) dot direction is non-negative, if the perpendicular
squared distance equals the squared radius exactly (a tangent ray), the
intersection returns the point at parameter tca (the half-chord is zero),
not absence. -/
theorem c6_tangent_ray_sphere_intersects (s : Sphere ℝ) (r : Ray3 ℝ)
    (htca : 0 ≤ (s.center.sub_p r.origin).dot r.direction)
    (hd2 : (s.center.sub_p r.origin).dot (s.center.sub_p r.origin) -
        ((s.center.sub_p r.origin).dot r.direction) *
          ((s.center.sub_p r.origin).dot r.direction) = s.radius * s.radius) :
    intersection_point_sphere_ray3 s r =
      some (r.origin.add_v
        (r.direction.mul_s ((s.center.sub_p r.origin).dot r.direction))) := by
  simp only [intersection_point_sphere_ray3]
  rw [if_neg (not_lt.mpr htca), if_neg (not_lt.mpr (le_of_eq hd2)),
    show s.radius * s.radius -
        ((s.center.sub_p r.origin).dot (s.center.sub_p r.origin) -
          (s.center.sub_p r.origin).dot r.direction *
            (s.center.sub_p r.origin).dot r.direction) = 0 by rw [hd2]; ring,
    Real.sqrt_zero, sub_zero]

/-- Witness for C6: the ray from the origin along the x axis is tangent to the
unit sphere centered one unit up the y axis, touching it at the ray origin. -/
theorem c6_witness :
    (0:ℝ) ≤ ((Point3.mk 0 1 0 : Point3 ℝ).sub_p (Point3.mk 0 0 0)).dot
        (Vector3.mk 1 0 0) ∧
    (((Point3.mk 0 1 0 : Point3 ℝ).sub_p (Point3.mk 0 0 0)).dot
        ((Point3.mk 0 1 0 : Point3 ℝ).sub_p (Point3.mk 0 0 0)) -
      (((Point3.mk 0 1 0 : Point3 ℝ).sub_p (Point3.mk 0 0 0)).dot (Vector3.mk 1 0 0)) *
        (((Point3.mk 0 1 0 : Point3 ℝ).sub_p (Point3.mk 0 0 0)).dot (Vector3.mk 1 0 0))
      = (1:ℝ) * 1) ∧
    intersection_point_sphere_ray3 (Sphere.mk (Point3.mk 0 1 0) 1)
        (Ray3.mk (Point3.mk 0 0 0) (Vector3.mk 1 0 0)) =
      some (Point3.mk 0 0 0) := by
  have h1 : (0:ℝ) ≤ ((Point3.mk 0 1 0 : Point3 ℝ).sub_p (Point3.mk 0 0 0)).dot
      (Vector3.mk 1 0 0) := by
    norm_num [Point3.sub_p, Vector3.dot]
  have h2 : (((Point3.mk 0 1 0 : Point3 ℝ).sub_p (Point3.mk 0 0 0)).dot
        ((Point3.mk 0 1 0 : Point3 ℝ).sub_p (Point3.mk 0 0 0)) -
      (((Point3.mk 0 1 0 : Point3 ℝ).sub_p (Point3.mk 0 0 0)).dot (Vector3.mk 1 0 0)) *
        (((Point3.mk 0 1 0 : Point3 ℝ).sub_p (Point3.mk 0 0 0)).dot (Vector3.mk 1 0 0))
      = (1:ℝ) * 1) := by
    norm_num [Point3.sub_p, Vector3.dot]
  refine ⟨h1, h2, ?_⟩
  rw [c6_tangent_ray_sphere_intersects (Sphere.mk (Point3.mk 0 1 0) 1)
    (Ray3.mk (Point3.mk 0 0 0) (Vector3.mk 1 0 0)) h1 h2]
  norm_num [Point3.sub_p, Vector3.dot, Vector3.mul_s, Point3.add_v]

/-- C8 counterexample: the three non-collinear points (5,0,5), (5,5,5),
(5,0,-1) produce the plane n = (-30,0,0), d = 150 (as the repository test
asserts), yet the first point does not lie on the claimed surface n.x = d
within the default tolerance, since n.a = -150 while d = 150; moreover the
non-collinear points (0,0,0), (1/1000,0,0), (0,1/1000,0) produce no plane at
all because their cross product fails the approximate-nonzero test. -/
theorem c8_counterexample :
    (¬ Point3.collinear (Point3.mk (5:ℚ) 0 5) (Point3.mk 5 5 5) (Point3.mk 5 0 (-1))) ∧
    Plane.from_points (Point3.mk (5:ℚ) 0 5) (Point3.mk 5 5 5) (Point3.mk 5 0 (-1)) =
      some (Plane.mk (Vector3.mk (-30) 0 0) 150) ∧
    (¬ approx_eq_eps_s ((Point3.mk (5:ℚ) 0 5).dot (Vector3.mk (-30) 0 0)) 150 epsilon) ∧
    (¬ Point3.collinear (Point3.mk (0:ℚ) 0 0) (Point3.mk (1/1000) 0 0)
      (Point3.mk 0 (1/1000) 0)) ∧
    Plane.from_points (Point3.mk (0:ℚ) 0 0) (Point3.mk (1/1000) 0 0)
      (Point3.mk 0 (1/1000) 0) = none := by
  have hnapprox : ¬ ((Vector3.mk (-30:ℚ) 0 0).approx_eq Vector3.zero) := by
    unfold Vector3.approx_eq Vector3.approx_eq_eps epsilon
    norm_num [max_def, Vector3.zero, Vector3.sub_v, Vector3.length2, Vector3.dot]
  have happrox : ((Vector3.mk (0:ℚ) 0 (1/1000000)).approx_eq Vector3.zero) := by
    unfold Vector3.approx_eq Vector3.approx_eq_eps epsilon
    norm_num [max_def, Vector3.zero, Vector3.sub_v, Vector3.length2, Vector3.dot]
  refine ⟨?_, ?_, ?_, ?_, ?_⟩
  · norm_num [Point3.collinear, Point3.sub_p, Vector3.cross, Vector3.zero,
      Vector3.mk.injEq]
  · norm_num [Plane.from_points, Point3.sub_p, Vector3.cross, Point3.dot, hnapprox]
  · norm_num [approx_eq_eps_s, epsilon, Point3.dot]
  · norm_num [Point3.collinear, Point3.sub_p, Vector3.cross, Vector3.zero,
      Vector3.mk.injEq]
  · norm_num [Plane.from_points, Point3.sub_p, Vector3.cross, happrox]

/-- C8 amended: from_points returns no plane exactly when the cross product of
the two edge vectors is approximately zero under the default tolerance (in
particular whenever the three points are collinear), and whenever it returns a
plane (n, d), each of the three points x satisfies n.x + d = 0 exactly, that
is, lies on the surface with the sign convention n.x = -d. -/
theorem c8_from_points_plane_membership :
    (∀ a b c : Point3 ℝ, Point3.collinear a b c → Plane.from_points a b c = none) ∧
    (∀ a b c : Point3 ℝ, Plane.from_points a b c = none ↔
      ((b.sub_p a).cross (c.sub_p a)).approx_eq Vector3.zero) ∧
    (∀ (a b c : Point3 ℝ) (pl : Plane ℝ), Plane.from_points a b c = some pl →
      a.dot pl.n + pl.d = 0 ∧ b.dot pl.n + pl.d = 0 ∧ c.dot pl.n + pl.d = 0) := by
  have hz : (Vector3.zero : Vector3 ℝ).approx_eq Vector3.zero := by
    unfold Vector3.approx_eq Vector3.approx_eq_eps epsilon
    norm_num [Vector3.zero, Vector3.sub_v, Vector3.length2, Vector3.dot]
  refine ⟨?_, ?_, ?_⟩
  · intro a b c h
    unfold Point3.collinear at h
    simp only [Plane.from_points, h]
    rw [if_pos hz]
  · intro a b c
    simp only [Plane.from_points]
    split_ifs with hc <;> simp [hc]
  · intro a b c pl h
    simp only [Plane.from_points] at h
    split_ifs at h with hc
    injection h with h
    subst h
    refine ⟨?_, ?_, ?_⟩ <;>
      · simp only [Point3.dot, Point3.sub_p, Vector3.cross]
        ring

/-- Witness for C8: the repository test points over the reals; the produced
plane contains all three points under the n.x + d = 0 convention, and a
concrete collinear triple yields no plane. -/
theorem c8_witness :
    Plane.from_points (Point3.mk (5:ℝ) 0 5) (Point3.mk 5 5 5) (Point3.mk 5 0 (-1)) =
      some (Plane.mk (Vector3.mk (-30) 0 0) 150) ∧
    ((Point3.mk (5:ℝ) 0 5).dot (Vector3.mk (-30) 0 0) + 150 = 0 ∧
      (Point3.mk (5:ℝ) 5 5).dot (Vector3.mk (-30) 0 0) + 150 = 0 ∧
      (Point3.mk (5:ℝ) 0 (-1)).dot (Vector3.mk (-30) 0 0) + 150 = 0) ∧
    Point3.collinear (Point3.mk (0:ℝ) 0 0) (Point3.mk 1 1 1) (Point3.mk 2 2 2) ∧
    Plane.from_points (Point3.mk (0:ℝ) 0 0) (Point3.mk 1 1 1) (Point3.mk 2 2 2) = none := by
  have hsome : Plane.from_points (Point3.mk (5:ℝ) 0 5) (Point3.mk 5 5 5)
      (Point3.mk 5 0 (-1)) = some (Plane.mk (Vector3.mk (-30) 0 0) 150) := by
    simp only [Plane.from_points, Point3.sub_p, Vector3.cross, Point3.dot]
    norm_num
    unfold Vector3.approx_eq Vector3.approx_eq_eps epsilon
    norm_num [Vector3.zero, Vector3.sub_v, Vector3.length2, Vector3.dot]
  have hcol : Point3.collinear (Point3.mk (0:ℝ) 0 0) (Point3.mk 1 1 1)
      (Point3.mk 2 2 2) := by
    unfold Point3.collinear
    norm_num [Point3.sub_p, Vector3.cross, Vector3.zero]
  exact ⟨hsome,
    (c8_from_points_plane_membership.2.2 (Point3.mk (5:ℝ) 0 5) (Point3.mk 5 5 5)
      (Point3.mk 5 0 (-1)) (Plane.mk (Vector3.mk (-30) 0 0) 150) hsome),
    hcol,
    c8_from_points_plane_membership.1 (Point3.mk (0:ℝ) 0 0) (Point3.mk 1 1 1)
      (Point3.mk 2 2 2) hcol⟩

/-- C9 counterexample: the 2D angle does not equal the claimed
atan2(abs(perp-dot), dot) form: at a = (-1,0), b = (0,1) the source computes
atan2(-1, 0) = -pi/2 while the claimed form gives atan2(1, 0) = pi/2. -/
theorem c9_counterexample :
    Vector2.angle (Vector2.mk (-1) 0) (Vector2.mk 0 1) ≠
      atan2 |(Vector2.mk (-1:ℝ) 0).perp_dot (Vector2.mk 0 1)|
        ((Vector2.mk (-1:ℝ) 0).dot (Vector2.mk 0 1)) := by
  have hlhs : Vector2.angle (Vector2.mk (-1) 0) (Vector2.mk 0 1) = -(Real.pi / 2) := by
    unfold Vector2.angle Vector2.perp_dot Vector2.dot atan2
    norm_num
  have hrhs : atan2 |(Vector2.mk (-1:ℝ) 0).perp_dot (Vector2.mk 0 1)|
      ((Vector2.mk (-1:ℝ) 0).dot (Vector2.mk 0 1)) = Real.pi / 2 := by
    unfold Vector2.perp_dot Vector2.dot atan2
    norm_num
  rw [hlhs, hrhs]
  have := Real.pi_pos
  intro h
  linarith

/-- C9 amended: the 2D angle is the signed form atan2(perp-dot, dot), without
an absolute value, and can be negative (it is -pi/2 at a = (-1,0), b = (0,1),
the value the repository test asserts); the 3D angle is
atan2(length of the cross product, dot) whose first argument is non-negative. -/
theorem c9_angle_atan2_forms :
    (∀ a b : Vector2 ℝ, a.angle b = atan2 (a.perp_dot b) (a.dot b)) ∧
    Vector2.angle (Vector2.mk (-1) 0) (Vector2.mk 0 1) = -(Real.pi / 2) ∧
    (∀ a b : Vector3 ℝ,
      a.angle b = atan2 ((a.cross b).length) (a.dot b) ∧ 0 ≤ (a.cross b).length) := by
  refine ⟨fun a b => rfl, ?_, fun a b => ⟨rfl, Real.sqrt_nonneg _⟩⟩
  unfold Vector2.angle Vector2.perp_dot Vector2.dot atan2
  norm_num

end Cgmath
